import Mathlib

/-
Shallow embedding of the dftimewolf TurbiniaProcessor module
(dftimewolf/lib/processors/turbinia.py) together with the containers it
consumes (dftimewolf/lib/containers/containers.py).

Python strings are modelled as lists of characters; the python methods
`str.endswith` / `str.startswith` become suffix / first-segment tests on
those lists.  The Turbinia client, the GCS output writer and the local
filesystem are external collaborators of the module and enter the model
as explicit function parameters (a snapshot stream for `get_task_data`,
a `path_exists` oracle for `os.path.exists`, a `fetch` oracle for
`GCSOutputWriter.copy_from`).
-/

namespace DFTimewolf

/-- Python strings, modelled as lists of characters. -/
abbrev PyStr := List Char

/-- Embed a Lean string literal into the python-string model. -/
def str (s : String) : PyStr := s.toList

/-- Python `path.endswith(suf)`. -/
def pyEndsWith (path suf : PyStr) : Bool := suf.isSuffixOf path

/-- Python `path.startswith(pre)`. -/
def pyStartsWith (path pre : PyStr) : Bool := pre.isPrefixOf path

/-- A Turbinia task dict, as consumed by `TurbiniaProcessor`.  The module reads
the keys `id`, `name`, `successful`, `status` and `saved_paths`; `successful`
is `None` while the task is pending and a boolean once it is terminal
(turbinia.py:136), `status` and `saved_paths` may be missing or `None`
(turbinia.py:211-213). -/
structure Task where
  id : PyStr
  name : PyStr
  successful : Option Bool
  status : Option PyStr
  saved_paths : Option (List PyStr)
deriving DecidableEq

/-! ### The polling loop `display_task_progress` (turbinia.py:113-159) -/

/-- One assignment `m[k] = v` into a python dict modelled as an
insertion-ordered association list: an existing key keeps its position and
gets the new value, a new key is appended. -/
def pyDictInsert (m : List (PyStr × Task)) (k : PyStr) (v : Task) :
    List (PyStr × Task) :=
  if m.any (fun kv => kv.1 = k) then
    m.map (fun kv => if kv.1 = k then (k, v) else kv)
  else m ++ [(k, v)]

/-- The dict comprehension `tasks = {task['id']: task for task in task_results}`
(turbinia.py:131). -/
def tasksDict (task_results : List Task) : List (PyStr × Task) :=
  task_results.foldl (fun m task => pyDictInsert m task.id task) []

/-- The set `completed_tasks` (turbinia.py:132-137): ids of the dict entries
whose `successful` field is not `None`. -/
def completed_tasks (task_results : List Task) : List PyStr :=
  ((tasksDict task_results).filter (fun kv => kv.2.successful.isSome)).map
    (fun kv => kv.1)

/-- The set `pending_tasks` (turbinia.py:133-139): ids of the dict entries
whose `successful` field is `None`. -/
def pending_tasks (task_results : List Task) : List PyStr :=
  ((tasksDict task_results).filter (fun kv => kv.2.successful.isNone)).map
    (fun kv => kv.1)

/-- `len(completed_tasks)` for a polled snapshot. -/
def completedCount (task_results : List Task) : Nat :=
  (completed_tasks task_results).length

/-- The loop exit test `len(completed_tasks) == len(task_results) and
completed_tasks` (turbinia.py:155). -/
def allTasksDone (task_results : List Task) : Bool :=
  completedCount task_results == task_results.length &&
    !(completed_tasks task_results).isEmpty

/-- Fuel-indexed unrolling of the `while True` loop of
`display_task_progress`: iteration `i` polls snapshot `snaps i`; the loop
returns the snapshot that passes `allTasksDone`, and runs forever (no fuel
suffices) when no polled snapshot ever passes it. -/
def pollLoop (snaps : Nat → List Task) : Nat → Nat → Option (List Task)
  | _, 0 => none
  | i, fuel + 1 =>
    if allTasksDone (snaps i) then some (snaps i)
    else pollLoop snaps (i + 1) fuel

/-- The loop of `display_task_progress` terminates on the snapshot stream
`snaps`: some finite fuel makes the unrolling return. -/
def PollTerminates (snaps : Nat → List Task) : Prop :=
  ∃ fuel, (pollLoop snaps 0 fuel).isSome

/-- The running `total_completed` counter before iteration `i`
(turbinia.py:126,141-142): initially `0`, and updated to the completed count
whenever the progress branch fires. -/
def total_completed (snaps : Nat → List Task) : Nat → Nat
  | 0 => 0
  | i + 1 =>
    let c := completedCount (snaps i)
    let t := total_completed snaps i
    if t < c ∨ c = 0 then c else t

/-- The guard of the progress-printing branch at iteration `i`
(turbinia.py:141): `len(completed_tasks) > total_completed or not
completed_tasks`. -/
def emitsProgressAt (snaps : Nat → List Task) (i : Nat) : Bool :=
  decide (total_completed snaps i < completedCount (snaps i) ∨
    completedCount (snaps i) = 0)

/-! ### Basic facts about the dict and the exit test -/

theorem foldl_pyDictInsert (ts : List Task) :
    ∀ m : List (PyStr × Task),
      (∀ t ∈ ts, ∀ kv ∈ m, kv.1 ≠ t.id) → (ts.map Task.id).Nodup →
      ts.foldl (fun m task => pyDictInsert m task.id task) m =
        m ++ ts.map (fun t => (t.id, t)) := by
  induction ts with
  | nil => intro m _ _; simp
  | cons t ts ih =>
    intro m hdisj hnodup
    have hne : m.any (fun kv => kv.1 = t.id) = false := by
      simp only [List.any_eq_false]
      intro kv hkv
      simpa using hdisj t (by simp) kv hkv
    rw [List.foldl_cons]
    have hstep : pyDictInsert m t.id t = m ++ [(t.id, t)] := by
      rw [pyDictInsert, if_neg]
      simp [hne]
    rw [hstep, ih (m ++ [(t.id, t)])]
    · simp
    · intro u hu kv hkv
      rcases List.mem_append.1 hkv with h | h
      · exact hdisj u (by simp [hu]) kv h
      · simp only [List.mem_singleton] at h
        subst h
        simp only [List.map_cons, List.nodup_cons] at hnodup
        intro hle
        simp only at hle
        exact hnodup.1 (by rw [hle]; exact List.mem_map_of_mem Task.id hu)
    · simp only [List.map_cons, List.nodup_cons] at hnodup
      exact hnodup.2

theorem tasksDict_of_nodup {ts : List Task} (h : (ts.map Task.id).Nodup) :
    tasksDict ts = ts.map (fun t => (t.id, t)) := by
  simpa using foldl_pyDictInsert ts [] (by simp) h

theorem completed_tasks_of_nodup {ts : List Task}
    (h : (ts.map Task.id).Nodup) :
    completed_tasks ts =
      (ts.filter (fun t => t.successful.isSome)).map Task.id := by
  rw [completed_tasks, tasksDict_of_nodup h, List.filter_map, List.map_map]
  rfl

theorem allTasksDone_iff {ts : List Task} (h : (ts.map Task.id).Nodup) :
    allTasksDone ts = true ↔ ts ≠ [] ∧ ∀ t ∈ ts, t.successful.isSome := by
  have hlen : completedCount ts =
      (ts.filter (fun t => t.successful.isSome)).length := by
    rw [completedCount, completed_tasks_of_nodup h, List.length_map]
  constructor
  · intro hdone
    rw [allTasksDone, Bool.and_eq_true, beq_iff_eq, hlen] at hdone
    have hall : ∀ t ∈ ts, t.successful.isSome := by
      have := List.filter_length_eq_length.1 hdone.1
      exact fun t ht => this t ht
    refine ⟨?_, hall⟩
    rintro rfl
    simp [completed_tasks, tasksDict] at hdone
  · rintro ⟨hne, hall⟩
    rw [allTasksDone, Bool.and_eq_true, beq_iff_eq, hlen]
    have hfull : ts.filter (fun t => t.successful.isSome) = ts :=
      List.filter_eq_self.2 hall
    refine ⟨by rw [hfull], ?_⟩
    simp only [Bool.not_eq_eq_eq_not, Bool.not_true, List.isEmpty_eq_false]
    rw [completed_tasks_of_nodup h, hfull]
    simpa using hne

theorem pollLoop_some (snaps : Nat → List Task) :
    ∀ fuel i ts, pollLoop snaps i fuel = some ts →
      ∃ j, i ≤ j ∧ ts = snaps j ∧ allTasksDone (snaps j) = true := by
  intro fuel
  induction fuel with
  | zero => intro i ts h; simp [pollLoop] at h
  | succ fuel ih =>
    intro i ts h
    rw [pollLoop] at h
    by_cases hd : allTasksDone (snaps i) = true
    · rw [if_pos hd] at h
      exact ⟨i, le_refl i, (Option.some_inj.1 h).symm, hd⟩
    · rw [if_neg hd] at h
      obtain ⟨j, hij, hts, hj⟩ := ih (i + 1) ts h
      exact ⟨j, by omega, hts, hj⟩

theorem pollLoop_reaches (snaps : Nat → List Task) :
    ∀ d i, allTasksDone (snaps (i + d)) = true →
      (pollLoop snaps i (d + 1)).isSome := by
  intro d
  induction d with
  | zero =>
    intro i h
    simp only [Nat.add_zero] at h
    simp [pollLoop, h]
  | succ d ih =>
    intro i h
    rw [pollLoop]
    by_cases hd : allTasksDone (snaps i) = true
    · simp [hd]
    · rw [if_neg hd]
      exact ih (i + 1) (by rw [show i + 1 + d = i + (d + 1) by omega]; exact h)

/-- C1: the loop of `display_task_progress` terminates iff some polled
snapshot is non-empty and every task in it has its `successful` field set
(terminal status); moreover any snapshot it returns has its completed-task
count equal to its total task count, that count being non-zero.  Task ids
within a snapshot are assumed distinct, as the code's keying of the snapshot
dict by `task['id']` presumes. -/
theorem poller_terminates_iff (snaps : Nat → List Task)
    (hids : ∀ i, ((snaps i).map Task.id).Nodup) :
    (PollTerminates snaps ↔
      ∃ i, snaps i ≠ [] ∧ ∀ t ∈ snaps i, t.successful.isSome) ∧
    (∀ fuel ts, pollLoop snaps 0 fuel = some ts →
      completedCount ts = ts.length ∧ completedCount ts ≠ 0) := by
  constructor
  · constructor
    · rintro ⟨fuel, hfuel⟩
      obtain ⟨ts, hts⟩ := Option.isSome_iff_exists.1 hfuel
      obtain ⟨j, _, _, hj⟩ := pollLoop_some snaps fuel 0 ts hts
      exact ⟨j, (allTasksDone_iff (hids j)).1 hj⟩
    · rintro ⟨i, hi⟩
      exact ⟨i + 1, pollLoop_reaches snaps i 0
        (by simpa using (allTasksDone_iff (hids i)).2 hi)⟩
  · intro fuel ts hts
    obtain ⟨j, _, hef, hj⟩ := pollLoop_some snaps fuel 0 ts hts
    subst hef
    rw [allTasksDone, Bool.and_eq_true, beq_iff_eq] at hj
    refine ⟨hj.1, ?_⟩
    have := hj.2
    simp only [Bool.not_eq_eq_eq_not, Bool.not_true,
      List.isEmpty_eq_false] at this
    rw [completedCount]
    simpa using this

/-- Concrete snapshot stream for the C1 witness: a single task that is
already terminal on every poll. -/
def w1Snaps : Nat → List Task := fun _ =>
  [{ id := str "t1", name := str "PlasoParserTask", successful := some true,
     status := some (str "done"), saved_paths := none }]

theorem poller_terminates_iff_witness :
    (PollTerminates w1Snaps ↔
      ∃ i, w1Snaps i ≠ [] ∧ ∀ t ∈ w1Snaps i, t.successful.isSome) ∧
    (∀ fuel ts, pollLoop w1Snaps 0 fuel = some ts →
      completedCount ts = ts.length ∧ completedCount ts ≠ 0) :=
  poller_terminates_iff w1Snaps (by intro i; simp only [w1Snaps]; decide)

theorem total_completed_succ (snaps : Nat → List Task)
    (hm : ∀ i, completedCount (snaps i) ≤ completedCount (snaps (i + 1))) :
    ∀ i, total_completed snaps (i + 1) = completedCount (snaps i) := by
  intro i
  induction i with
  | zero =>
    rw [total_completed, total_completed]
    split
    · rfl
    · omega
  | succ i ih =>
    rw [total_completed]
    simp only [ih]
    have := hm i
    split
    · rfl
    · omega

/-- C3 (amended): at every iteration of the polling loop, the progress
message is emitted iff this is the first iteration, or the completed count
strictly increased since the previous iteration, or the completed set is
empty — the third disjunct is the `or not completed_tasks` part of the guard
at turbinia.py:141, absent from the original claim.  Completed counts are
assumed non-decreasing across polls, per the snapshot-monotonicity invariant
of the data model. -/
theorem progress_emitted_iff (snaps : Nat → List Task)
    (hm : ∀ i, completedCount (snaps i) ≤ completedCount (snaps (i + 1))) :
    emitsProgressAt snaps 0 = true ∧
    ∀ i, emitsProgressAt snaps (i + 1) =
      decide (completedCount (snaps i) < completedCount (snaps (i + 1)) ∨
        completedCount (snaps (i + 1)) = 0) := by
  constructor
  · rw [emitsProgressAt, total_completed]
    simp only [decide_eq_true_eq]
    omega
  · intro i
    rw [emitsProgressAt, total_completed_succ snaps hm i]

/-- Concrete snapshot stream for the C3 counterexample: one still-pending
task, polled unchanged forever. -/
def c3Snaps : Nat → List Task := fun _ =>
  [{ id := str "t1", name := str "GrepTask", successful := none,
     status := none, saved_paths := none }]

/-- C3 counterexample: on the second iteration the snapshot repeats the
first one and the completed count did not increase (it is 0 both times), yet
the loop emits a progress message, because the guard at turbinia.py:141 also
fires whenever the completed set is empty. -/
theorem progress_emitted_counterexample :
    emitsProgressAt c3Snaps 1 = true ∧
    completedCount (c3Snaps 1) = completedCount (c3Snaps 0) ∧
    c3Snaps 1 = c3Snaps 0 := by
  refine ⟨?_, rfl, rfl⟩
  decide

/-- Concrete snapshot stream for the C3 witness: completed counts 1 then 2,
then stable. -/
def w3Task1 : Task :=
  { id := str "t1", name := str "PlasoParserTask", successful := some true,
    status := some (str "done"), saved_paths := none }

def w3Task2 : Task :=
  { id := str "t2", name := str "GrepTask", successful := some false,
    status := some (str "failed"), saved_paths := none }

def w3Snaps : Nat → List Task := fun i =>
  if i = 0 then [w3Task1] else [w3Task1, w3Task2]

theorem progress_emitted_iff_witness :
    emitsProgressAt w3Snaps 0 = true ∧
    ∀ i, emitsProgressAt w3Snaps (i + 1) =
      decide (completedCount (w3Snaps i) < completedCount (w3Snaps (i + 1)) ∨
        completedCount (w3Snaps (i + 1)) = 0) :=
  progress_emitted_iff w3Snaps (by
    intro i
    match i with
    | 0 => decide
    | j + 1 => simp [w3Snaps])

/-! ### The result message and artifact collection in `process`
(turbinia.py:161-267) -/

/-- The three `continue` filters of the report loop (turbinia.py:214-219): a
path is kept in the message iff it does not end in `worker-log.txt`, does
not end in `<task id>.log`, and does not start with `/`. -/
def reportKeeps (task : Task) (path : PyStr) : Bool :=
  !pyEndsWith path (str "worker-log.txt") &&
    !pyEndsWith path (task.id ++ str ".log") &&
    !pyStartsWith path (str "/")

/-- The per-task header line of the results message (turbinia.py:208-211). -/
def taskStatusLine (task : Task) : PyStr :=
  task.name ++ str " (" ++ task.id ++ str "): " ++
    task.status.getD (str "No task status") ++ str "\n"

/-- The full per-task block of the results message: the header line followed
by the kept saved paths, indented (turbinia.py:207-220); a `None`
`saved_paths` is read as the empty list via `or []`. -/
def taskMessage (task : Task) : PyStr :=
  taskStatusLine task ++
    ((task.saved_paths.getD []).filter (reportKeeps task)).flatMap
      (fun path => str "  " ++ path ++ str "\n")

/-- The human-readable results message (turbinia.py:206-220). -/
def buildMessage (task_data : List Task) : PyStr :=
  str "Completed " ++ (toString task_data.length).toList ++
    str " Turbinia tasks\n" ++ task_data.flatMap taskMessage

/-- Selection of local results (turbinia.py:236): starts with `/` and ends
with `.plaso`. -/
def isLocalPlaso (path : PyStr) : Bool :=
  pyStartsWith path (str "/") && pyEndsWith path (str ".plaso")

/-- Selection of remote results (turbinia.py:238): starts with `gs://` and
ends with `.plaso`. -/
def isGsPlaso (path : PyStr) : Bool :=
  pyStartsWith path (str "gs://") && pyEndsWith path (str ".plaso")

/-- The `local_paths` list built by the collection loop (turbinia.py:230-237):
every saved path of every task, in order, that is a local `.plaso` path; a
`None` `saved_paths` is read as the empty list. -/
def local_paths (task_data : List Task) : List PyStr :=
  task_data.flatMap (fun task => (task.saved_paths.getD []).filter isLocalPlaso)

/-- The `gs_paths` list built by the collection loop (turbinia.py:231-239). -/
def gs_paths (task_data : List Task) : List PyStr :=
  task_data.flatMap (fun task => (task.saved_paths.getD []).filter isGsPlaso)

/-- The label `'{project}-{disk_name}'` shared by all collected artifacts of
a run (turbinia.py:232). -/
def timeline_label (project disk_name : PyStr) : PyStr :=
  project ++ str "-" ++ disk_name

/-- Outcome of one `GCSOutputWriter.copy_from` call, the remote-storage
collaborator (turbinia.py:256-258): it raises `TurbiniaException`, returns a
falsy value, or returns a usable staged local path. -/
inductive FetchOutcome where
  | exn
  | falsy
  | ok (local_path : PyStr)
deriving DecidableEq

/-- Result of the collection phase of `process`.  The two `errNo...`
constructors are the critical errors raised at turbinia.py:241-244 and
turbinia.py:266-267 — the designated no-usable-output failures; the
`errRetrieval` constructor is the critical error raised at
turbinia.py:259-261 when a GCS fetch raises, carrying the output assigned so
far. -/
inductive ProcessResult where
  | errNoPlasoFound
  | errRetrieval (partialOutput : List (PyStr × PyStr))
  | errNonePlasoCollected
  | ok (output : List (PyStr × PyStr))
deriving DecidableEq

/-- The GCS copy loop (turbinia.py:253-264): each gs path is fetched in
turn; an exception aborts immediately with the output built so far, a falsy
staged path is skipped, a usable staged path is appended to the output under
the timeline label. -/
def copyFromGCS (label : PyStr) (fetch : PyStr → FetchOutcome) :
    List PyStr → List (PyStr × PyStr) →
    Except (List (PyStr × PyStr)) (List (PyStr × PyStr))
  | [], output => .ok output
  | path :: rest, output =>
    match fetch path with
    | .exn => .error output
    | .falsy => copyFromGCS label fetch rest output
    | .ok lp => copyFromGCS label fetch rest (output ++ [(label, lp)])

/-- The collection phase of `TurbiniaProcessor.process` (turbinia.py:230-267):
classify saved paths, fail if none was retained, seed the output with the
existing local paths, run the GCS copy loop, and fail if the output is still
empty. -/
def processCollect (project disk_name : PyStr) (path_exists : PyStr → Bool)
    (fetch : PyStr → FetchOutcome) (task_data : List Task) : ProcessResult :=
  if (local_paths task_data).isEmpty && (gs_paths task_data).isEmpty then
    .errNoPlasoFound
  else
    match copyFromGCS (timeline_label project disk_name) fetch
        (gs_paths task_data)
        (((local_paths task_data).filter path_exists).map
          (fun p => (timeline_label project disk_name, p))) with
    | .error partialOutput => .errRetrieval partialOutput
    | .ok output => if output.isEmpty then .errNonePlasoCollected else .ok output

/-- The entries the GCS copy loop appends when no fetch raises: one entry per
gs path whose fetch returned a usable staged path, in gs-path order. -/
def fetchOkEntries (label : PyStr) (fetch : PyStr → FetchOutcome)
    (gps : List PyStr) : List (PyStr × PyStr) :=
  gps.filterMap (fun g =>
    match fetch g with
    | .ok lp => some (label, lp)
    | _ => none)

/-- The gs paths on which the copy loop actually calls `copy_from` before it
returns or aborts. -/
def fetchAttempts (fetch : PyStr → FetchOutcome) : List PyStr → List PyStr
  | [] => []
  | g :: rest =>
    match fetch g with
    | .exn => [g]
    | _ => g :: fetchAttempts fetch rest

theorem copyFromGCS_ok_eq (label : PyStr) (fetch : PyStr → FetchOutcome) :
    ∀ (gps : List PyStr) (output out : List (PyStr × PyStr)),
      copyFromGCS label fetch gps output = .ok out →
      out = output ++ fetchOkEntries label fetch gps := by
  intro gps
  induction gps with
  | nil =>
    intro output out h
    simp only [copyFromGCS] at h
    cases h
    simp [fetchOkEntries]
  | cons g rest ih =>
    intro output out h
    rw [copyFromGCS] at h
    cases hg : fetch g with
    | exn => rw [hg] at h; cases h
    | falsy =>
      rw [hg] at h
      rw [ih output out h]
      simp [fetchOkEntries, hg]
    | ok lp =>
      rw [hg] at h
      rw [ih (output ++ [(label, lp)]) out h]
      simp [fetchOkEntries, hg]

theorem copyFromGCS_no_exn (label : PyStr) (fetch : PyStr → FetchOutcome) :
    ∀ (gps : List PyStr) (output : List (PyStr × PyStr)),
      (∀ g ∈ gps, fetch g ≠ .exn) →
      copyFromGCS label fetch gps output =
        .ok (output ++ fetchOkEntries label fetch gps) := by
  intro gps
  induction gps with
  | nil => intro output _; simp [copyFromGCS, fetchOkEntries]
  | cons g rest ih =>
    intro output hne
    cases hg : fetch g with
    | exn => exact absurd hg (hne g (by simp))
    | falsy =>
      simp only [copyFromGCS, hg]
      rw [ih output (fun x hx => hne x (by simp [hx]))]
      simp [fetchOkEntries, hg]
    | ok lp =>
      simp only [copyFromGCS, hg]
      rw [ih (output ++ [(label, lp)]) (fun x hx => hne x (by simp [hx]))]
      simp [fetchOkEntries, hg]

theorem copyFromGCS_error_eq (label : PyStr) (fetch : PyStr → FetchOutcome) :
    ∀ (pre : List PyStr) (g : PyStr) (post : List PyStr)
      (output : List (PyStr × PyStr)),
      (∀ x ∈ pre, fetch x ≠ .exn) → fetch g = .exn →
      copyFromGCS label fetch (pre ++ g :: post) output =
        .error (output ++ fetchOkEntries label fetch pre) := by
  intro pre
  induction pre with
  | nil =>
    intro g post output _ hg
    simp only [List.nil_append, copyFromGCS, hg, fetchOkEntries,
      List.filterMap_nil, List.append_nil]
  | cons x rest ih =>
    intro g post output hne hg
    rw [List.cons_append]
    cases hx : fetch x with
    | exn => exact absurd hx (hne x (by simp))
    | falsy =>
      simp only [copyFromGCS, hx]
      rw [ih g post output (fun y hy => hne y (by simp [hy])) hg]
      simp [fetchOkEntries, hx]
    | ok lp =>
      simp only [copyFromGCS, hx]
      rw [ih g post (output ++ [(label, lp)]) (fun y hy => hne y (by simp [hy])) hg]
      simp [fetchOkEntries, hx]

theorem fetchAttempts_error_eq (fetch : PyStr → FetchOutcome) :
    ∀ (pre : List PyStr) (g : PyStr) (post : List PyStr),
      (∀ x ∈ pre, fetch x ≠ .exn) → fetch g = .exn →
      fetchAttempts fetch (pre ++ g :: post) = pre ++ [g] := by
  intro pre
  induction pre with
  | nil =>
    intro g post _ hg
    simp [fetchAttempts, hg]
  | cons x rest ih =>
    intro g post hne hg
    rw [List.cons_append]
    cases hx : fetch x with
    | exn => exact absurd hx (hne x (by simp))
    | falsy =>
      simp only [fetchAttempts, hx]
      rw [ih g post (fun y hy => hne y (by simp [hy])) hg]
      rfl
    | ok lp =>
      simp only [fetchAttempts, hx]
      rw [ih g post (fun y hy => hne y (by simp [hy])) hg]
      rfl

/-- Structure of every successful collection output: the existing local
paths, then the staged gs copies. -/
theorem processCollect_ok_eq (project disk_name : PyStr)
    (path_exists : PyStr → Bool) (fetch : PyStr → FetchOutcome)
    (task_data : List Task) (out : List (PyStr × PyStr))
    (h : processCollect project disk_name path_exists fetch task_data = .ok out) :
    out = ((local_paths task_data).filter path_exists).map
            (fun p => (timeline_label project disk_name, p)) ++
          fetchOkEntries (timeline_label project disk_name) fetch
            (gs_paths task_data) := by
  rw [processCollect] at h
  by_cases hempty :
      ((local_paths task_data).isEmpty && (gs_paths task_data).isEmpty) = true
  · rw [if_pos hempty] at h; cases h
  · rw [if_neg hempty] at h
    cases hcopy : copyFromGCS (timeline_label project disk_name) fetch
        (gs_paths task_data)
        (((local_paths task_data).filter path_exists).map
          (fun p => (timeline_label project disk_name, p))) with
    | error e => simp only [hcopy] at h; cases h
    | ok o =>
      simp only [hcopy] at h
      by_cases ho : o.isEmpty = true
      · rw [if_pos ho] at h; cases h
      · rw [if_neg ho] at h
        cases h
        exact copyFromGCS_ok_eq _ fetch _ _ _ hcopy

/-- C2 (amended): every successful collection output is the list of existing
local `.plaso` paths — in discovery order (task order, then path order within
task) — followed by the staged copies of the remote `.plaso` paths, again in
discovery order, with no deduplication.  Local and remote entries are not
interleaved in overall discovery order: all local entries precede all remote
entries (turbinia.py:247-264); for the one-task example of the claim this
still yields exactly the two entries, local then staged remote. -/
theorem collect_output_order (project disk_name : PyStr)
    (path_exists : PyStr → Bool) (fetch : PyStr → FetchOutcome)
    (task_data : List Task) (out : List (PyStr × PyStr))
    (h : processCollect project disk_name path_exists fetch task_data = .ok out) :
    out = ((local_paths task_data).filter path_exists).map
            (fun p => (timeline_label project disk_name, p)) ++
          fetchOkEntries (timeline_label project disk_name) fetch
            (gs_paths task_data) :=
  processCollect_ok_eq project disk_name path_exists fetch task_data out h

/-- Modelled from the spec: collection in pure discovery order, one pass over
the tasks in order and over each task's saved paths in order, emitting for
each retained path its collected entry (the local path itself when it exists,
the staged copy for a fetched remote path).  This is the order the claim
asserts for the code's output. -/
def specDiscoveryCollect (project disk_name : PyStr)
    (path_exists : PyStr → Bool) (fetch : PyStr → FetchOutcome)
    (task_data : List Task) : List (PyStr × PyStr) :=
  task_data.flatMap (fun task =>
    (task.saved_paths.getD []).filterMap (fun p =>
      if isLocalPlaso p then
        if path_exists p then some (timeline_label project disk_name, p)
        else none
      else if isGsPlaso p then
        match fetch p with
        | .ok lp => some (timeline_label project disk_name, lp)
        | _ => none
      else none))

/-- Concrete input for the C2 counterexample: one task whose first
discovered result path is remote and whose second is local. -/
def c2Task : Task :=
  { id := str "t9", name := str "PlasoParserTask", successful := some true,
    status := some (str "done"),
    saved_paths := some [str "gs://bucket/a.plaso", str "/x/b.plaso"] }

def c2Exists : PyStr → Bool := fun p => p == str "/x/b.plaso"

def c2Fetch : PyStr → FetchOutcome := fun g =>
  if g == str "gs://bucket/a.plaso" then .ok (str "/staging/a.plaso")
  else .exn

/-- C2 counterexample: for `c2Task` the remote result is discovered before
the local one, yet the code's output lists the local entry first, so the
output does not preserve discovery order. -/
theorem collect_output_order_counterexample :
    processCollect (str "proj") (str "disk") c2Exists c2Fetch [c2Task] =
      .ok [(timeline_label (str "proj") (str "disk"), str "/x/b.plaso"),
           (timeline_label (str "proj") (str "disk"), str "/staging/a.plaso")] ∧
    specDiscoveryCollect (str "proj") (str "disk") c2Exists c2Fetch [c2Task] =
      [(timeline_label (str "proj") (str "disk"), str "/staging/a.plaso"),
       (timeline_label (str "proj") (str "disk"), str "/x/b.plaso")] ∧
    processCollect (str "proj") (str "disk") c2Exists c2Fetch [c2Task] ≠
      .ok (specDiscoveryCollect (str "proj") (str "disk") c2Exists c2Fetch
        [c2Task]) := by
  refine ⟨by decide, by decide, by decide⟩

/-- Concrete input for the C2 witness: the one-task example of the claim,
with the recognized result extension, an existing local path and a
succeeding remote fetch. -/
def c2wTask : Task :=
  { id := str "t1", name := str "PlasoParserTask", successful := some true,
    status := some (str "done"),
    saved_paths := some [str "/out/result.plaso", str "/logs/worker-log.txt",
      str "gs://bucket/result.plaso"] }

def c2wExists : PyStr → Bool := fun p => p == str "/out/result.plaso"

def c2wFetch : PyStr → FetchOutcome := fun _ =>
  .ok (str "/staging/result.plaso")

theorem collect_output_order_witness :
    processCollect (str "proj") (str "disk") c2wExists c2wFetch [c2wTask] =
      .ok [(timeline_label (str "proj") (str "disk"), str "/out/result.plaso"),
           (timeline_label (str "proj") (str "disk"),
             str "/staging/result.plaso")] ∧
    [(timeline_label (str "proj") (str "disk"), str "/out/result.plaso"),
     (timeline_label (str "proj") (str "disk"), str "/staging/result.plaso")] =
      ((local_paths [c2wTask]).filter c2wExists).map
        (fun p => (timeline_label (str "proj") (str "disk"), p)) ++
      fetchOkEntries (timeline_label (str "proj") (str "disk")) c2wFetch
        (gs_paths [c2wTask]) :=
  ⟨by decide,
   collect_output_order (str "proj") (str "disk") c2wExists c2wFetch [c2wTask]
     _ (by decide)⟩

/-- C4: the run never completes successfully with an empty artifact list,
and whenever every fetch completes and zero retained artifact paths remain
(no existing local `.plaso` path and no usable staged remote copy), the
collection fails with one of the two critical no-usable-output errors —
`No .plaso files found in Turbinia output.` (turbinia.py:241-244) or
`No .plaso files could be found.` (turbinia.py:266-267) — the code's
rendering of the spec's `NoArtifactsError`. -/
theorem no_artifacts_is_fatal (project disk_name : PyStr)
    (path_exists : PyStr → Bool) (fetch : PyStr → FetchOutcome)
    (task_data : List Task) :
    (∀ out, processCollect project disk_name path_exists fetch task_data =
      .ok out → out ≠ []) ∧
    ((∀ g ∈ gs_paths task_data, fetch g ≠ .exn) →
      ((local_paths task_data).filter path_exists = [] ∧
        fetchOkEntries (timeline_label project disk_name) fetch
          (gs_paths task_data) = []) →
      processCollect project disk_name path_exists fetch task_data =
          .errNoPlasoFound ∨
        processCollect project disk_name path_exists fetch task_data =
          .errNonePlasoCollected) := by
  constructor
  · intro out h
    have hout := processCollect_ok_eq project disk_name path_exists fetch
      task_data out h
    rw [processCollect] at h
    by_cases hempty :
        ((local_paths task_data).isEmpty && (gs_paths task_data).isEmpty) = true
    · rw [if_pos hempty] at h; cases h
    · rw [if_neg hempty] at h
      cases hcopy : copyFromGCS (timeline_label project disk_name) fetch
          (gs_paths task_data)
          (((local_paths task_data).filter path_exists).map
            (fun p => (timeline_label project disk_name, p))) with
      | error e => simp only [hcopy] at h; cases h
      | ok o =>
        simp only [hcopy] at h
        by_cases ho : o.isEmpty = true
        · rw [if_pos ho] at h; cases h
        · rw [if_neg ho] at h
          cases h
          simpa using ho
  · intro hne hzero
    rw [processCollect]
    by_cases hempty :
        ((local_paths task_data).isEmpty && (gs_paths task_data).isEmpty) = true
    · rw [if_pos hempty]; left; rfl
    · rw [if_neg hempty]
      rw [copyFromGCS_no_exn (timeline_label project disk_name) fetch
        (gs_paths task_data) _ hne]
      right
      rw [hzero.1, hzero.2]
      simp

/-- Concrete input for the C4 witness: one successful task whose only saved
path is not a recognized result. -/
def c4Task : Task :=
  { id := str "t1", name := str "StringsTask", successful := some true,
    status := some (str "done"),
    saved_paths := some [str "/scratch/strings.txt"] }

def c4Fetch : PyStr → FetchOutcome := fun _ => .exn

theorem no_artifacts_is_fatal_witness :
    processCollect (str "proj") (str "disk") (fun _ => true) c4Fetch [c4Task] =
        .errNoPlasoFound ∨
      processCollect (str "proj") (str "disk") (fun _ => true) c4Fetch
        [c4Task] = .errNonePlasoCollected :=
  (no_artifacts_is_fatal (str "proj") (str "disk") (fun _ => true) c4Fetch
    [c4Task]).2 (by decide) (by decide)

/-- C5: the first remote fetch that raises aborts the whole run immediately
as the critical retrieval error: the result is `errRetrieval` (the
`add_error(..., critical=True); return` at turbinia.py:259-261, skipping the
remaining steps), and the gs paths attempted are exactly the ones up to and
including the failing path — no later remote path is fetched. -/
theorem fetch_failure_aborts (project disk_name : PyStr)
    (path_exists : PyStr → Bool) (fetch : PyStr → FetchOutcome)
    (task_data : List Task) (pre : List PyStr) (g : PyStr) (post : List PyStr)
    (hsplit : gs_paths task_data = pre ++ g :: post)
    (hpre : ∀ x ∈ pre, fetch x ≠ .exn) (hg : fetch g = .exn) :
    processCollect project disk_name path_exists fetch task_data =
      .errRetrieval
        (((local_paths task_data).filter path_exists).map
          (fun p => (timeline_label project disk_name, p)) ++
         fetchOkEntries (timeline_label project disk_name) fetch pre) ∧
    fetchAttempts fetch (gs_paths task_data) = pre ++ [g] := by
  constructor
  · rw [processCollect]
    rw [if_neg (by rw [hsplit]; simp)]
    rw [hsplit, copyFromGCS_error_eq (timeline_label project disk_name) fetch
      pre g post _ hpre hg]
  · rw [hsplit]
    exact fetchAttempts_error_eq fetch pre g post hpre hg

/-- Concrete input for the C5 witness: three remote results; the second
fetch raises, the third is never attempted. -/
def c5Task : Task :=
  { id := str "t1", name := str "PlasoParserTask", successful := some true,
    status := some (str "done"),
    saved_paths := some [str "gs://b/a.plaso", str "gs://b/b.plaso",
      str "gs://b/c.plaso"] }

def c5Fetch : PyStr → FetchOutcome := fun g =>
  if g == str "gs://b/a.plaso" then .ok (str "/staging/a.plaso")
  else if g == str "gs://b/b.plaso" then .exn
  else .ok (str "/staging/c.plaso")

theorem fetch_failure_aborts_witness :
    processCollect (str "proj") (str "disk") (fun _ => true) c5Fetch [c5Task] =
      .errRetrieval
        (((local_paths [c5Task]).filter (fun _ => true)).map
          (fun p => (timeline_label (str "proj") (str "disk"), p)) ++
         fetchOkEntries (timeline_label (str "proj") (str "disk")) c5Fetch
           [str "gs://b/a.plaso"]) ∧
    fetchAttempts c5Fetch (gs_paths [c5Task]) =
      [str "gs://b/a.plaso"] ++ [str "gs://b/b.plaso"] :=
  fetch_failure_aborts (str "proj") (str "disk") (fun _ => true) c5Fetch
    [c5Task] [str "gs://b/a.plaso"] (str "gs://b/b.plaso")
    [str "gs://b/c.plaso"] (by decide) (by decide) (by decide)

/-- A path matching either noise sentinel — ending in `worker-log.txt` or in
`<task id>.log` — never ends in `.plaso`. -/
theorem sentinel_not_plaso (path tid : PyStr)
    (h : pyEndsWith path (str "worker-log.txt") = true ∨
      pyEndsWith path (tid ++ str ".log") = true) :
    pyEndsWith path (str ".plaso") = false := by
  by_contra hp
  rw [Bool.not_eq_false, pyEndsWith, List.isSuffixOf_iff_suffix] at hp
  rcases h with h | h
  · rw [pyEndsWith, List.isSuffixOf_iff_suffix] at h
    rcases List.suffix_or_suffix_of_suffix hp h with hs | hs
    · exact absurd hs (by decide)
    · exact absurd hs (by decide)
  · rw [pyEndsWith, List.isSuffixOf_iff_suffix] at h
    have hlog : str ".log" <:+ path :=
      List.IsSuffix.trans (List.suffix_append tid (str ".log")) h
    rcases List.suffix_or_suffix_of_suffix hp hlog with hs | hs
    · exact absurd hs (by decide)
    · exact absurd hs (by decide)

theorem mem_local_paths_plaso {task_data : List Task} {p : PyStr}
    (h : p ∈ local_paths task_data) : pyEndsWith p (str ".plaso") = true := by
  rw [local_paths] at h
  obtain ⟨task, _, hp⟩ := List.mem_flatMap.1 h
  have hkeep := (List.mem_filter.1 hp).2
  rw [isLocalPlaso, Bool.and_eq_true] at hkeep
  exact hkeep.2

theorem mem_gs_paths_plaso {task_data : List Task} {p : PyStr}
    (h : p ∈ gs_paths task_data) : pyEndsWith p (str ".plaso") = true := by
  rw [gs_paths] at h
  obtain ⟨task, _, hp⟩ := List.mem_flatMap.1 h
  have hkeep := (List.mem_filter.1 hp).2
  rw [isGsPlaso, Bool.and_eq_true] at hkeep
  exact hkeep.2

theorem fetchOkEntries_fst {label : PyStr} {fetch : PyStr → FetchOutcome}
    {gps : List PyStr} {e : PyStr × PyStr} (h : e ∈ fetchOkEntries label fetch gps) :
    e.1 = label ∧ ∃ g ∈ gps, fetch g = .ok e.2 := by
  obtain ⟨g, hg, hge⟩ := List.mem_filterMap.1 h
  cases hfg : fetch g with
  | exn => rw [hfg] at hge; cases hge
  | falsy => rw [hfg] at hge; cases hge
  | ok lp =>
    rw [hfg] at hge
    simp only [Option.some_inj] at hge
    subst hge
    exact ⟨rfl, g, hg, hfg⟩

/-- C6: a saved path that matches the worker-log sentinel or `<task id>.log`
is excluded from collection: it is never classified as a local or a remote
result, and it appears in a successful output only if the remote-storage
collaborator itself staged some fetched remote result at that exact name. -/
theorem noise_paths_excluded (project disk_name : PyStr)
    (path_exists : PyStr → Bool) (fetch : PyStr → FetchOutcome)
    (task_data : List Task) (task : Task) (path : PyStr)
    (_htask : task ∈ task_data) (_hpath : path ∈ task.saved_paths.getD [])
    (hnoise : pyEndsWith path (str "worker-log.txt") = true ∨
      pyEndsWith path (task.id ++ str ".log") = true) :
    path ∉ local_paths task_data ∧ path ∉ gs_paths task_data ∧
    ∀ out lbl, processCollect project disk_name path_exists fetch task_data =
        .ok out → (lbl, path) ∈ out →
      ∃ gp ∈ gs_paths task_data, fetch gp = .ok path := by
  have hnp := sentinel_not_plaso path task.id hnoise
  refine ⟨?_, ?_, ?_⟩
  · intro hmem
    rw [mem_local_paths_plaso hmem] at hnp
    cases hnp
  · intro hmem
    rw [mem_gs_paths_plaso hmem] at hnp
    cases hnp
  · intro out lbl hok hmem
    rw [processCollect_ok_eq project disk_name path_exists fetch task_data
      out hok] at hmem
    rcases List.mem_append.1 hmem with hm | hm
    · obtain ⟨q, hq, hqe⟩ := List.mem_map.1 hm
      have hq2 : q ∈ local_paths task_data := List.mem_of_mem_filter hq
      have hq3 : q = path := congrArg Prod.snd hqe
      rw [hq3] at hq2
      rw [mem_local_paths_plaso hq2] at hnp
      cases hnp
    · have := fetchOkEntries_fst hm
      exact this.2

/-- Concrete input for the C6 witness: a successful task whose saved paths
include the worker log, its own task log and one real result. -/
def c6Task : Task :=
  { id := str "t7", name := str "GrepTask", successful := some true,
    status := some (str "done"),
    saved_paths := some [str "/logs/worker-log.txt", str "/logs/t7.log",
      str "/out/r.plaso"] }

theorem noise_paths_excluded_witness :
    (str "/logs/worker-log.txt") ∉ local_paths [c6Task] ∧
    (str "/logs/worker-log.txt") ∉ gs_paths [c6Task] ∧
    ∀ out lbl, processCollect (str "proj") (str "disk") (fun _ => true)
        (fun _ => .falsy) [c6Task] = .ok out →
      (lbl, str "/logs/worker-log.txt") ∈ out →
      ∃ gp ∈ gs_paths [c6Task], (fun _ => FetchOutcome.falsy) gp =
        .ok (str "/logs/worker-log.txt") :=
  noise_paths_excluded (str "proj") (str "disk") (fun _ => true)
    (fun _ => .falsy) [c6Task] c6Task (str "/logs/worker-log.txt")
    (by decide) (by decide) (by decide)

/-- A path that starts with `/` does not start with `gs://`. -/
theorem local_not_gs {p : PyStr} (h : pyStartsWith p (str "/") = true) :
    pyStartsWith p (str "gs://") = false := by
  rw [pyStartsWith, List.isPrefixOf_iff_prefix] at h
  obtain ⟨t, ht⟩ := h
  have hslash : str "/" = ['/'] := rfl
  rw [hslash] at ht
  subst ht
  rfl

/-- A local `.plaso` path is not a gs `.plaso` path. -/
theorem isLocalPlaso_not_gs {p : PyStr} (h : isLocalPlaso p = true) :
    isGsPlaso p = false := by
  rw [isLocalPlaso, Bool.and_eq_true] at h
  rw [isGsPlaso, local_not_gs h.1, Bool.false_and]

/-- A task with one more saved path appended; used to state that reporting
an extra non-existing local result changes nothing. -/
def withExtraPath (task : Task) (p : PyStr) : Task :=
  { task with saved_paths := some (task.saved_paths.getD [] ++ [p]) }

/-- C7: a retained local result path that does not exist on the local
filesystem is silently excluded: it is dropped by the existence filter, it
appears in a successful output only if a remote fetch staged a copy at that
exact name, and appending such a path to a task's saved paths never changes
whether the run succeeds nor the output it succeeds with. -/
theorem missing_local_path_excluded (project disk_name : PyStr)
    (path_exists : PyStr → Bool) (fetch : PyStr → FetchOutcome)
    (pre post : List Task) (task : Task) (p : PyStr)
    (hl : isLocalPlaso p = true) (hne : path_exists p = false) :
    p ∉ (local_paths (pre ++ task :: post)).filter path_exists ∧
    (∀ out lbl, processCollect project disk_name path_exists fetch
        (pre ++ task :: post) = .ok out → (lbl, p) ∈ out →
      ∃ gp ∈ gs_paths (pre ++ task :: post), fetch gp = .ok p) ∧
    (∀ out, processCollect project disk_name path_exists fetch
        (pre ++ withExtraPath task p :: post) = .ok out ↔
      processCollect project disk_name path_exists fetch
        (pre ++ task :: post) = .ok out) := by
  have hgs : isGsPlaso p = false := isLocalPlaso_not_gs hl
  have hlocal2 : local_paths (pre ++ withExtraPath task p :: post) =
      local_paths pre ++
        (((task.saved_paths.getD []).filter isLocalPlaso) ++ [p]) ++
        local_paths post := by
    simp [local_paths, withExtraPath, List.filter_append, hl]
  have hgs2 : gs_paths (pre ++ withExtraPath task p :: post) =
      gs_paths (pre ++ task :: post) := by
    simp [gs_paths, withExtraPath, List.filter_append, hgs]
  have hlocal1 : local_paths (pre ++ task :: post) =
      local_paths pre ++ ((task.saved_paths.getD []).filter isLocalPlaso) ++
        local_paths post := by
    simp [local_paths]
  have hfilter : (local_paths
        (pre ++ withExtraPath task p :: post)).filter path_exists =
      (local_paths (pre ++ task :: post)).filter path_exists := by
    rw [hlocal2, hlocal1]
    simp [List.filter_append, hne]
  refine ⟨?_, ?_, ?_⟩
  · intro hmem
    have := (List.mem_filter.1 hmem).2
    rw [hne] at this
    cases this
  · intro out lbl hok hmem
    rw [processCollect_ok_eq project disk_name path_exists fetch
      (pre ++ task :: post) out hok] at hmem
    rcases List.mem_append.1 hmem with hm | hm
    · obtain ⟨q, hq, hqe⟩ := List.mem_map.1 hm
      have hq3 : q = p := congrArg Prod.snd hqe
      rw [hq3] at hq
      have := (List.mem_filter.1 hq).2
      rw [hne] at this
      cases this
    · have := fetchOkEntries_fst hm
      exact this.2
  · intro out
    by_cases hboth : (local_paths (pre ++ task :: post)).isEmpty = true ∧
        (gs_paths (pre ++ task :: post)).isEmpty = true
    · have hLnil : local_paths (pre ++ task :: post) = [] :=
        List.isEmpty_iff.1 hboth.1
      have hGnil : gs_paths (pre ++ task :: post) = [] :=
        List.isEmpty_iff.1 hboth.2
      have hparts : local_paths pre = [] ∧
          (task.saved_paths.getD []).filter isLocalPlaso = [] ∧
          local_paths post = [] := by
        rw [hlocal1] at hLnil
        simpa [List.append_eq_nil] using hLnil
      constructor
      · intro habs
        rw [processCollect] at habs
        rw [if_neg (by
          rw [hlocal2, hparts.1, hparts.2.1, hparts.2.2]
          simp)] at habs
        rw [hgs2, hGnil] at habs
        simp only [copyFromGCS] at habs
        rw [if_pos (by
          rw [hfilter, hLnil]
          simp)] at habs
        cases habs
      · intro habs
        rw [processCollect, if_pos (by rw [hLnil, hGnil]; rfl)] at habs
        cases habs
    · have hres : processCollect project disk_name path_exists fetch
          (pre ++ withExtraPath task p :: post) =
          processCollect project disk_name path_exists fetch
            (pre ++ task :: post) := by
        rw [processCollect, processCollect, hfilter, hgs2]
        rw [if_neg (by
          rw [hlocal2]
          simp)]
        rw [if_neg (by
          intro hc
          rw [Bool.and_eq_true] at hc
          exact hboth ⟨hc.1, hc.2⟩)]
      rw [hres]

/-- Concrete input for the C7 witness: one successful task whose only saved
path is a local result that does not exist on disk. -/
def c7Task : Task :=
  { id := str "t3", name := str "PlasoParserTask", successful := some true,
    status := some (str "done"), saved_paths := some [] }

def c7Exists : PyStr → Bool := fun _ => false

theorem missing_local_path_excluded_witness :
    (str "/gone/x.plaso") ∉
        (local_paths ([] ++ c7Task :: [])).filter c7Exists ∧
    (∀ out lbl, processCollect (str "proj") (str "disk") c7Exists
        (fun _ => .falsy) ([] ++ c7Task :: []) = .ok out →
      (lbl, str "/gone/x.plaso") ∈ out →
      ∃ gp ∈ gs_paths ([] ++ c7Task :: []),
        (fun _ => FetchOutcome.falsy) gp = .ok (str "/gone/x.plaso")) ∧
    (∀ out, processCollect (str "proj") (str "disk") c7Exists
        (fun _ => .falsy)
        ([] ++ withExtraPath c7Task (str "/gone/x.plaso") :: []) = .ok out ↔
      processCollect (str "proj") (str "disk") c7Exists (fun _ => .falsy)
        ([] ++ c7Task :: []) = .ok out) :=
  missing_local_path_excluded (str "proj") (str "disk") c7Exists
    (fun _ => .falsy) [] [] c7Task (str "/gone/x.plaso") (by decide)
    (by decide)

/-- C9: the artifact label is the deterministic, randomness-free function
`timeline_label` of the evidence identity (project and disk name) alone:
within one successful run every output entry carries that one label, and two
successful runs over the same project and disk name — whatever their task
snapshots, filesystem contents or fetch results — carry the identical
label on every entry. -/
theorem label_deterministic (project disk_name : PyStr)
    (pe1 pe2 : PyStr → Bool) (f1 f2 : PyStr → FetchOutcome)
    (td1 td2 : List Task) (out1 out2 : List (PyStr × PyStr))
    (h1 : processCollect project disk_name pe1 f1 td1 = .ok out1)
    (h2 : processCollect project disk_name pe2 f2 td2 = .ok out2) :
    (∀ e ∈ out1, e.1 = timeline_label project disk_name) ∧
    (∀ e1 ∈ out1, ∀ e2 ∈ out2, e1.1 = e2.1) := by
  have hfst : ∀ (pe : PyStr → Bool) (f : PyStr → FetchOutcome)
      (td : List Task) (out : List (PyStr × PyStr)),
      processCollect project disk_name pe f td = .ok out →
      ∀ e ∈ out, e.1 = timeline_label project disk_name := by
    intro pe f td out h e he
    rw [processCollect_ok_eq project disk_name pe f td out h] at he
    rcases List.mem_append.1 he with hm | hm
    · obtain ⟨q, _, hqe⟩ := List.mem_map.1 hm
      rw [← hqe]
    · exact (fetchOkEntries_fst hm).1
  refine ⟨hfst pe1 f1 td1 out1 h1, ?_⟩
  intro e1 he1 e2 he2
  rw [hfst pe1 f1 td1 out1 h1 e1 he1, hfst pe2 f2 td2 out2 h2 e2 he2]

/-- Concrete inputs for the C9 witness: two runs over the same project and
disk but different snapshots and different collaborator behaviour. -/
def w9Task1 : Task :=
  { id := str "t1", name := str "PlasoParserTask", successful := some true,
    status := some (str "done"), saved_paths := some [str "/a/x.plaso"] }

def w9Task2 : Task :=
  { id := str "t2", name := str "PlasoParserTask", successful := some true,
    status := some (str "done"),
    saved_paths := some [str "gs://b/y.plaso"] }

theorem label_deterministic_witness :
    (∀ e ∈ [(timeline_label (str "proj") (str "disk"), str "/a/x.plaso")],
      e.1 = timeline_label (str "proj") (str "disk")) ∧
    (∀ e1 ∈ [(timeline_label (str "proj") (str "disk"), str "/a/x.plaso")],
      ∀ e2 ∈ [(timeline_label (str "proj") (str "disk"),
          str "/staging/y.plaso")],
        e1.1 = e2.1) :=
  label_deterministic (str "proj") (str "disk") (fun _ => true)
    (fun _ => true) (fun _ => .falsy)
    (fun _ => .ok (str "/staging/y.plaso")) [w9Task1] [w9Task2]
    [(timeline_label (str "proj") (str "disk"), str "/a/x.plaso")]
    [(timeline_label (str "proj") (str "disk"), str "/staging/y.plaso")]
    (by decide) (by decide)

/-! ### The request builder (turbinia.py:171-191) and the
ThreatIntelligence containers (containers.py:139-160) -/

/-- A `containers.ThreatIntelligence` attribute container
(containers.py:139-160): a threat name, an indicator pattern, and a path to
the indicator data. -/
structure ThreatIntelligence where
  name : PyStr
  indicator : PyStr
  path : PyStr
deriving DecidableEq

/-- The slice of a `TurbiniaRequest` this module writes: the
`recipe['filter_patterns']` entry.  `none` models a recipe in which the key
was never set — the module only sets it when at least one
ThreatIntelligence container was found (turbinia.py:180-184). -/
structure TurbiniaRequest where
  filter_patterns : Option (List PyStr)
deriving DecidableEq

/-- Request construction from the stored ThreatIntelligence containers
(turbinia.py:179-184): when the container list is non-empty, its indicator
fields become `filter_patterns`, in order; otherwise the key is left
unset. -/
def buildRequest (threatintel : List ThreatIntelligence) : TurbiniaRequest :=
  if threatintel.isEmpty then { filter_patterns := none }
  else { filter_patterns := some (threatintel.map (fun item => item.indicator)) }

/-- Modelled from the spec: the effective filter-pattern sequence of a
ProcessingRequest, an `ordered sequence of string` that is empty when the
recipe key was never set — the default recipe of the external
`TurbiniaRequest` class carries no filter patterns. -/
def effectiveFilterPatterns (request : TurbiniaRequest) : List PyStr :=
  request.filter_patterns.getD []

/-- C8: for every (possibly empty) ThreatIntelligence container sequence the
built request's filter patterns have the same length as the sequence and
preserve its order: the i-th pattern is the indicator field of the i-th
container. -/
theorem filter_patterns_preserved (threatintel : List ThreatIntelligence) :
    (effectiveFilterPatterns (buildRequest threatintel)).length =
      threatintel.length ∧
    ∀ i : Nat, (effectiveFilterPatterns (buildRequest threatintel))[i]? =
      (threatintel[i]?).map (fun item => item.indicator) := by
  by_cases h : threatintel.isEmpty = true
  · rw [List.isEmpty_iff] at h
    subst h
    exact ⟨rfl, fun i => rfl⟩
  · constructor
    · simp [buildRequest, h, effectiveFilterPatterns]
    · intro i
      simp [buildRequest, h, effectiveFilterPatterns]

/-- C10: a task whose `saved_paths` is `None` is read as having an empty
path list by both passes of `process` (the `or []` at turbinia.py:213 and
turbinia.py:235): the report is the same as for an empty list and still
carries the task's name, id and status line, and collection is unchanged. -/
theorem none_saved_paths_harmless (project disk_name : PyStr)
    (path_exists : PyStr → Bool) (fetch : PyStr → FetchOutcome)
    (pre post : List Task) (task : Task) :
    buildMessage (pre ++ { task with saved_paths := none } :: post) =
      buildMessage (pre ++ { task with saved_paths := some [] } :: post) ∧
    taskMessage { task with saved_paths := none } = taskStatusLine task ∧
    processCollect project disk_name path_exists fetch
        (pre ++ { task with saved_paths := none } :: post) =
      processCollect project disk_name path_exists fetch
        (pre ++ { task with saved_paths := some [] } :: post) := by
  refine ⟨?_, ?_, ?_⟩
  · simp [buildMessage, taskMessage, taskStatusLine]
  · simp [taskMessage, taskStatusLine]
  · have hl : local_paths (pre ++ { task with saved_paths := none } :: post) =
        local_paths (pre ++ { task with saved_paths := some [] } :: post) := by
      simp [local_paths]
    have hg : gs_paths (pre ++ { task with saved_paths := none } :: post) =
        gs_paths (pre ++ { task with saved_paths := some [] } :: post) := by
      simp [gs_paths]
    rw [processCollect, processCollect, hl, hg]

end DFTimewolf
